import Mathlib

/-!
# dash-button: Wi-Fi association / SmartConfig provisioning state machine

Shallow embedding of the event handlers of `src/main.c` and of the part of `setup`
that registers them and waits on the readiness semaphore.

* The program state is the three objects the handlers share (`retry`, `ip_info`, `sem`),
  the station configuration held by the Wi-Fi driver (written by `esp_wifi_set_config`),
  and the list of requests the handlers have issued to the driver so far.
* `ESP_ERROR_CHECK(call)` issues the call and aborts the program unless the driver answers
  `ESP_OK`.  The driver is a parameter `drv`: given the requests issued so far and the new
  request it tells whether the answer is `ESP_OK`.  A handler returns `Except.ok s` when it
  runs to its end and `Except.error s` when `abort()` was reached in state `s`.
* Log output (`ESP_LOGI`, `printf`) is not part of the state; the one side effect inside a
  logging statement, the `retry--` of line 30, is `ESP_LOGI_retry_postdec`.
-/

namespace DashButton

/-! ## Data -/

/-- Modelled from the spec: `sizeof(wifi_config.sta.ssid)`, declared in the ESP-IDF headers;
the spec gives the identity bound as 32 bytes. -/
def SSID_SIZE : Nat := 32

/-- Modelled from the spec: `sizeof(wifi_config.sta.password)`, declared in the ESP-IDF
headers; the spec gives the secret bound as 64 bytes. -/
def PASSWORD_SIZE : Nat := 64

/-- Largest value of a C `int` (32 bits). -/
def INT_MAX : Int := 2147483647

/-- Value of a 32-bit two's-complement `int` after an arithmetic result `x`. -/
def wrapInt32 (x : Int) : Int := (x + 2147483648) % 4294967296 - 2147483648

/-- The fields of `wifi_config_t` (member `sta`) the program writes; bytes are `Nat`s.
Every other field stays at the zero of `wifi_config_t wifi_config = { 0 }`. -/
structure wifi_config_t where
  ssid : List Nat
  password : List Nat
deriving DecidableEq, Repr

/-- The address record `esp_netif_ip_info_t`; each address is a 32-bit word. -/
structure esp_netif_ip_info_t where
  ip : Nat
  netmask : Nat
  gw : Nat
deriving DecidableEq, Repr

/-- Payload of `WIFI_EVENT_STA_DISCONNECTED` as far as the handler reads it. -/
structure wifi_event_sta_disconnected_t where
  ssid : List Nat
  reason : Nat
deriving DecidableEq, Repr

/-- Payload of `SC_EVENT_GOT_SSID_PSWD` as far as the handler reads it: the raw bytes of
the two character arrays. -/
structure smartconfig_event_got_ssid_pswd_t where
  ssid : List Nat
  password : List Nat
deriving DecidableEq, Repr

/-- Payload of `IP_EVENT_STA_GOT_IP` as far as the handler reads it. -/
structure ip_event_got_ip_t where
  ip_info : esp_netif_ip_info_t
deriving DecidableEq, Repr

/-- Requests the handlers issue to the Wi-Fi driver and to SmartConfig. -/
inductive DriverCall where
  | esp_wifi_connect
  | esp_wifi_disconnect
  | esp_wifi_set_config (cfg : wifi_config_t)
  | esp_smartconfig_set_type
  | esp_smartconfig_start
deriving DecidableEq, Repr

/-- Answers of the driver: `drv issued c = true` when request `c`, issued after the
requests `issued`, returns `ESP_OK`. -/
abbrev Driver := List DriverCall → DriverCall → Bool

/-- A driver that answers `ESP_OK` to every request. -/
def drvOk : Driver := fun _ _ => true

/-- Shared program state.
* `retry`: `static int retry` of `setup`, passed to the disconnect handler as `arg`;
* `ip_info`: `static esp_netif_ip_info_t ip_info` of `setup`;
* `sem`: the binary semaphore `sem` (`true` = a permit is available);
* `sta_config`: the station configuration held by the driver;
* `calls`: the requests issued by the handlers, oldest first. -/
structure State where
  retry : Int
  ip_info : esp_netif_ip_info_t
  sem : Bool
  sta_config : wifi_config_t
  calls : List DriverCall
deriving DecidableEq, Repr

/-- The events `setup` registers a handler for. -/
inductive Event where
  | WIFI_EVENT_STA_START
  | WIFI_EVENT_STA_DISCONNECTED (evt : wifi_event_sta_disconnected_t)
  | SC_EVENT_GOT_SSID_PSWD (evt : smartconfig_event_got_ssid_pswd_t)
  | IP_EVENT_STA_GOT_IP (evt : ip_event_got_ip_t)
deriving DecidableEq, Repr

/-! ## Primitives -/

/-- State carried by an outcome, whether the handler returned or the program aborted. -/
def stateOf : Except State State → State
  | .ok s => s
  | .error s => s

/-- Effect of a request on the state: it is recorded, and `esp_wifi_set_config` replaces
the station configuration held by the driver when the driver accepts it. -/
def issue (drv : Driver) (c : DriverCall) (s : State) : State :=
  match c with
  | .esp_wifi_set_config cfg =>
      if drv s.calls c then { s with sta_config := cfg, calls := s.calls ++ [c] }
      else { s with calls := s.calls ++ [c] }
  | _ => { s with calls := s.calls ++ [c] }

/-- The macro `ESP_ERROR_CHECK(c)`: issue `c`, abort unless the answer is `ESP_OK`. -/
def ESP_ERROR_CHECK (drv : Driver) (c : DriverCall) (s : State) : Except State State :=
  if drv s.calls c then .ok (issue drv c s) else .error (issue drv c s)

/-- The library function `strncpy(dst, src, n)`: the `n` bytes written to `dst`.  Bytes of
`src` are copied up to the first NUL, the rest of the `n` bytes is filled with NUL.  `src`
is the array the source pointer designates; its end stops the copy like a NUL does. -/
def strncpy : List Nat → Nat → List Nat
  | _, 0 => []
  | [], n + 1 => List.replicate (n + 1) 0
  | c :: cs, n + 1 => if c = 0 then List.replicate (n + 1) 0 else c :: strncpy cs n

/-- The call `xSemaphoreGive(sem)` on a binary semaphore: afterwards one permit is
available (giving a semaphore that already holds its permit changes nothing). -/
def xSemaphoreGive (s : State) : State := { s with sem := true }

/-- The call `xSemaphoreTake(sem, portMAX_DELAY)`: takes the permit and returns when one is
available; `none` when the caller stays blocked. -/
def xSemaphoreTake (s : State) : Option State :=
  if s.sem then some { s with sem := false } else none

/-! ## Event handlers -/

/-- Handler of `WIFI_EVENT_STA_START` (main.c lines 17-20). -/
def STA_start_event_handler (drv : Driver) (s : State) : Except State State :=
  ESP_ERROR_CHECK drv .esp_wifi_connect s

/-- Modelled from the spec: the logging macro `ESP_LOGI` is declared in the ESP-IDF headers.
The spec has the budget decremented on every disconnect handled with budget left, so the
macro is taken to evaluate its arguments: the statement
`ESP_LOGI("TAG", "WIFI STA disconnected event, retry %d", retry--)` (main.c line 30)
post-decrements the `int` it is given.  This is the value of `retry` after it. -/
def ESP_LOGI_retry_postdec (retry : Int) : Int := wrapInt32 (retry - 1)

/-- Handler of `WIFI_EVENT_STA_DISCONNECTED` (main.c lines 22-40).  `if (retry)` tests for
a non-zero counter; the `retry--` of line 30 decrements it before the connect request of
line 32 is issued. -/
def STA_disconnected_event_handler (drv : Driver) (_evt : wifi_event_sta_disconnected_t)
    (s : State) : Except State State :=
  if s.retry ≠ 0 then
    let s1 := { s with retry := ESP_LOGI_retry_postdec s.retry }
    ESP_ERROR_CHECK drv .esp_wifi_connect s1
  else do
    let s1 ← ESP_ERROR_CHECK drv .esp_smartconfig_set_type s
    ESP_ERROR_CHECK drv .esp_smartconfig_start s1

/-- The local `wifi_config` built by the credentials handler (main.c lines 48-50). -/
def build_wifi_config (evt : smartconfig_event_got_ssid_pswd_t) : wifi_config_t :=
  { ssid := strncpy evt.ssid SSID_SIZE
    password := strncpy evt.password PASSWORD_SIZE }

/-- Handler of `SC_EVENT_GOT_SSID_PSWD` (main.c lines 42-56). -/
def SC_got_ssid_pass_event_handler (drv : Driver) (evt : smartconfig_event_got_ssid_pswd_t)
    (s : State) : Except State State := do
  let wifi_config := build_wifi_config evt
  let s1 ← ESP_ERROR_CHECK drv .esp_wifi_disconnect s
  let s2 ← ESP_ERROR_CHECK drv (.esp_wifi_set_config wifi_config) s1
  ESP_ERROR_CHECK drv .esp_wifi_connect s2

/-- Handler of `IP_EVENT_STA_GOT_IP` (main.c lines 58-66): `memcpy` of the event's
`ip_info` into the shared record, then `xSemaphoreGive(sem)`. -/
def IP_STA_got_ip_event_handler (evt : ip_event_got_ip_t) (s : State) : State :=
  xSemaphoreGive { s with ip_info := evt.ip_info }

/-! ## Startup sequence and event loop -/

/-- State when `setup` has registered the handlers (main.c lines 145-153): `retry = 3`,
`ip_info` zero-initialised, the semaphore created empty (line 15).  `cfg` is the station
configuration the driver starts with. -/
def setup_init (cfg : wifi_config_t) : State :=
  { retry := 3
    ip_info := { ip := 0, netmask := 0, gw := 0 }
    sem := false
    sta_config := cfg
    calls := [] }

/-- The wait of `setup` (main.c lines 166-175): take the semaphore, then read
`ip_info.ip`.  `none` when the take does not return. -/
def setup_wait (s : State) : Option (Nat × State) :=
  match xSemaphoreTake s with
  | some s1 => some (s1.ip_info.ip, s1)
  | none => none

/-- Delivery of one event to the handler `setup` registered for it. -/
def dispatch (drv : Driver) (e : Event) (s : State) : Except State State :=
  match e with
  | .WIFI_EVENT_STA_START => STA_start_event_handler drv s
  | .WIFI_EVENT_STA_DISCONNECTED evt => STA_disconnected_event_handler drv evt s
  | .SC_EVENT_GOT_SSID_PSWD evt => SC_got_ssid_pass_event_handler drv evt s
  | .IP_EVENT_STA_GOT_IP evt => .ok (IP_STA_got_ip_event_handler evt s)

/-- The event loop: events are handled one after the other; an abort ends the program. -/
def run (drv : Driver) : State → List Event → Except State State
  | s, [] => .ok s
  | s, e :: es =>
      match dispatch drv e s with
      | .ok s1 => run drv s1 es
      | .error s1 => .error s1

/-! ## Observations on the request list -/

/-- Number of connect requests in a request list. -/
def connectCount (cs : List DriverCall) : Nat := cs.count .esp_wifi_connect

/-- Number of SmartConfig start requests in a request list. -/
def smartconfigStartCount (cs : List DriverCall) : Nat := cs.count .esp_smartconfig_start

/-- Number of SmartConfig set-type requests in a request list. -/
def smartconfigSetTypeCount (cs : List DriverCall) : Nat := cs.count .esp_smartconfig_set_type

/-- A dotted IPv4 address `a.b.c.d` as the 32-bit word of `esp_ip4_addr_t` (first octet in
the low byte). -/
def ip4 (a b c d : Nat) : Nat := a + 256 * b + 65536 * c + 16777216 * d

/-- Bytes of an ASCII string. -/
def bytes (str : String) : List Nat := str.toList.map Char.toNat

/-- An array of `n` bytes holding `bs` followed by NULs. -/
def padded (bs : List Nat) (n : Nat) : List Nat := bs ++ List.replicate (n - bs.length) 0

/-- A disconnect event with reason 202 (authentication failure). -/
def authFail : Event := .WIFI_EVENT_STA_DISCONNECTED { ssid := padded (bytes "HomeNet") 32, reason := 202 }

/-- The requests issued by `n` disconnect events handled at budget 0: a SmartConfig
set-type and a SmartConfig start request each. -/
def provisioningRequests : Nat → List DriverCall
  | 0 => []
  | n + 1 =>
      DriverCall.esp_smartconfig_set_type :: DriverCall.esp_smartconfig_start ::
        provisioningRequests n

/-- A station configuration with both fields zeroed. -/
def blankConfig : wifi_config_t :=
  { ssid := List.replicate 32 0, password := List.replicate 64 0 }

/-- The sequence of disconnect events with the given payloads. -/
def disconnects (ds : List wifi_event_sta_disconnected_t) : List Event :=
  ds.map Event.WIFI_EVENT_STA_DISCONNECTED

/-- A state in which provisioning is active: budget 0, the driver holding the credential
`HomeNet` / `secret123`, after three connect requests and one SmartConfig activation. -/
def provisioningState : State :=
  { retry := 0
    ip_info := { ip := 0, netmask := 0, gw := 0 }
    sem := false
    sta_config := { ssid := padded (bytes "HomeNet") 32, password := padded (bytes "secret123") 64 }
    calls := [DriverCall.esp_wifi_connect, DriverCall.esp_wifi_connect,
      DriverCall.esp_wifi_connect, DriverCall.esp_smartconfig_set_type,
      DriverCall.esp_smartconfig_start] }

/-- The discovered credential with empty identity and secret `secret`. -/
def emptyIdentityEvt : smartconfig_event_got_ssid_pswd_t :=
  { ssid := padded (bytes "") 32, password := padded (bytes "secret") 64 }

/-- The discovered credential `HomeNet` / `secret123`. -/
def homeNetEvt : smartconfig_event_got_ssid_pswd_t :=
  { ssid := padded (bytes "HomeNet") 32, password := padded (bytes "secret123") 64 }

/-- A got-IP event carrying address `a` (netmask 255.255.255.0, gateway 10.0.0.1). -/
def gotIp (a : Nat) : ip_event_got_ip_t :=
  { ip_info := { ip := a, netmask := ip4 255 255 255 0, gw := ip4 10 0 0 1 } }

/-! ## Basic facts about the primitives -/

theorem issue_retry (drv : Driver) (c : DriverCall) (s : State) :
    (issue drv c s).retry = s.retry := by
  cases c <;> simp [issue]
  split <;> rfl

theorem issue_calls (drv : Driver) (c : DriverCall) (s : State) :
    (issue drv c s).calls = s.calls ++ [c] := by
  cases c <;> simp [issue]
  split <;> rfl

theorem issue_sem (drv : Driver) (c : DriverCall) (s : State) :
    (issue drv c s).sem = s.sem := by
  cases c <;> simp [issue]
  split <;> rfl

theorem issue_ip_info (drv : Driver) (c : DriverCall) (s : State) :
    (issue drv c s).ip_info = s.ip_info := by
  cases c <;> simp [issue]
  split <;> rfl

theorem stateOf_check (drv : Driver) (c : DriverCall) (s : State) :
    stateOf (ESP_ERROR_CHECK drv c s) = issue drv c s := by
  unfold ESP_ERROR_CHECK
  split <;> rfl

theorem check_ok (drv : Driver) (c : DriverCall) (s : State) (h : drv s.calls c = true) :
    ESP_ERROR_CHECK drv c s = .ok (issue drv c s) := by
  simp [ESP_ERROR_CHECK, h]

theorem check_error (drv : Driver) (c : DriverCall) (s : State) (h : drv s.calls c = false) :
    ESP_ERROR_CHECK drv c s = .error (issue drv c s) := by
  simp [ESP_ERROR_CHECK, h]

theorem stateOf_bind_check (drv : Driver) (c : DriverCall) (s : State)
    (f : State → Except State State) :
    stateOf (ESP_ERROR_CHECK drv c s >>= f) =
      if drv s.calls c then stateOf (f (issue drv c s)) else issue drv c s := by
  unfold ESP_ERROR_CHECK
  split <;> rfl

theorem wrapInt32_of_range (x : Int) (hlo : -2147483648 ≤ x) (hhi : x ≤ 2147483647) :
    wrapInt32 x = x := by
  unfold wrapInt32
  omega

/-- The retry counter after the disconnect handler, whatever the driver answers. -/
theorem disconnected_retry (drv : Driver) (evt : wifi_event_sta_disconnected_t) (s : State) :
    (stateOf (STA_disconnected_event_handler drv evt s)).retry =
      if s.retry ≠ 0 then wrapInt32 (s.retry - 1) else s.retry := by
  unfold STA_disconnected_event_handler ESP_LOGI_retry_postdec
  split
  · simp [stateOf_check, issue_retry]
  · rw [stateOf_bind_check]
    split <;> simp [stateOf_check, issue_retry]

/-- The credentials handler never writes the retry counter. -/
theorem got_ssid_pass_retry (drv : Driver) (evt : smartconfig_event_got_ssid_pswd_t)
    (s : State) :
    (stateOf (SC_got_ssid_pass_event_handler drv evt s)).retry = s.retry := by
  unfold SC_got_ssid_pass_event_handler
  simp only [bind_assoc]
  rw [stateOf_bind_check]
  split
  · rw [stateOf_bind_check]
    split <;> simp [stateOf_check, issue_retry]
  · simp [issue_retry]

/-- The range `0 ≤ retry ≤ 3` is kept by every handler. -/
theorem dispatch_retry_range (drv : Driver) (e : Event) (s : State)
    (h : 0 ≤ s.retry ∧ s.retry ≤ 3) :
    0 ≤ (stateOf (dispatch drv e s)).retry ∧ (stateOf (dispatch drv e s)).retry ≤ 3 := by
  cases e with
  | WIFI_EVENT_STA_START =>
      simp only [dispatch, STA_start_event_handler, stateOf_check, issue_retry]
      exact h
  | WIFI_EVENT_STA_DISCONNECTED evt =>
      simp only [dispatch, disconnected_retry]
      split
      · rw [wrapInt32_of_range _ (by omega) (by omega)]
        omega
      · exact h
  | SC_EVENT_GOT_SSID_PSWD evt =>
      simp only [dispatch, got_ssid_pass_retry]
      exact h
  | IP_EVENT_STA_GOT_IP evt =>
      simpa [dispatch, stateOf, IP_STA_got_ip_event_handler, xSemaphoreGive] using h

theorem run_retry_range (drv : Driver) (es : List Event) (s : State)
    (h : 0 ≤ s.retry ∧ s.retry ≤ 3) :
    0 ≤ (stateOf (run drv s es)).retry ∧ (stateOf (run drv s es)).retry ≤ 3 := by
  induction es generalizing s with
  | nil => simpa [run, stateOf] using h
  | cons e es ih =>
      have hd := dispatch_retry_range drv e s h
      unfold run
      cases hr : dispatch drv e s with
      | ok s1 =>
          rw [hr] at hd
          exact ih s1 hd
      | error s1 =>
          rw [hr] at hd
          exact hd

/-- With an accepting driver and a budget in `1 .. INT_MAX` the disconnect handler returns
after one connect request. -/
theorem disconnected_ok_pos (drv : Driver) (hdrv : ∀ issued c, drv issued c = true)
    (evt : wifi_event_sta_disconnected_t) (s : State)
    (hpos : 0 < s.retry) (hint : s.retry ≤ INT_MAX) :
    STA_disconnected_event_handler drv evt s
      = Except.ok { s with retry := s.retry - 1,
                           calls := s.calls ++ [DriverCall.esp_wifi_connect] } := by
  have hne : s.retry ≠ 0 := by omega
  have hw : wrapInt32 (s.retry - 1) = s.retry - 1 := by
    unfold INT_MAX at hint
    exact wrapInt32_of_range _ (by omega) (by omega)
  simp [STA_disconnected_event_handler, ESP_LOGI_retry_postdec, hne, ESP_ERROR_CHECK, hdrv, issue,
    hw]

/-- With an accepting driver and budget 0 the disconnect handler returns after the two
SmartConfig requests. -/
theorem disconnected_ok_zero (drv : Driver) (hdrv : ∀ issued c, drv issued c = true)
    (evt : wifi_event_sta_disconnected_t) (s : State) (h0 : s.retry = 0) :
    STA_disconnected_event_handler drv evt s
      = Except.ok { s with calls := s.calls ++
          [DriverCall.esp_smartconfig_set_type, DriverCall.esp_smartconfig_start] } := by
  unfold STA_disconnected_event_handler
  rw [if_neg (by simp [h0]), check_ok drv _ s (hdrv _ _)]
  show ESP_ERROR_CHECK drv DriverCall.esp_smartconfig_start
    (issue drv DriverCall.esp_smartconfig_set_type s) = _
  rw [check_ok _ _ _ (hdrv _ _)]
  simp [issue]

/-- At budget 0 a run of disconnect events only adds SmartConfig requests. -/
theorem run_disconnects_zero (drv : Driver) (hdrv : ∀ issued c, drv issued c = true)
    (ds : List wifi_event_sta_disconnected_t) (s : State) (h0 : s.retry = 0) :
    run drv s (disconnects ds)
      = Except.ok { s with calls := s.calls ++ provisioningRequests ds.length } := by
  induction ds generalizing s with
  | nil => simp [disconnects, run, provisioningRequests]
  | cons d ds ih =>
      simp only [disconnects, List.map_cons, run, dispatch]
      rw [disconnected_ok_zero drv hdrv d s h0]
      simp only []
      have := ih { s with calls := s.calls ++
          [DriverCall.esp_smartconfig_set_type, DriverCall.esp_smartconfig_start] } h0
      simp only [disconnects] at this
      rw [this]
      simp [provisioningRequests]

/-- The first three disconnect events after `setup`, with an accepting driver. -/
theorem run_three_disconnects (drv : Driver) (hdrv : ∀ issued c, drv issued c = true)
    (cfg : wifi_config_t) (d1 d2 d3 : wifi_event_sta_disconnected_t) (es : List Event) :
    run drv (setup_init cfg)
        (Event.WIFI_EVENT_STA_DISCONNECTED d1 :: Event.WIFI_EVENT_STA_DISCONNECTED d2 ::
          Event.WIFI_EVENT_STA_DISCONNECTED d3 :: es)
      = run drv { setup_init cfg with retry := 0, calls :=
          [DriverCall.esp_wifi_connect, DriverCall.esp_wifi_connect,
            DriverCall.esp_wifi_connect] } es := by
  simp only [run, dispatch]
  rw [disconnected_ok_pos drv hdrv d1 _ (by simp [setup_init]) (by simp [setup_init, INT_MAX])]
  simp only []
  rw [disconnected_ok_pos drv hdrv d2 _ (by simp [setup_init]) (by simp [setup_init, INT_MAX])]
  simp only []
  rw [disconnected_ok_pos drv hdrv d3 _ (by simp [setup_init]) (by simp [setup_init, INT_MAX])]
  simp [setup_init]

theorem connectCount_provisioningRequests (n : Nat) :
    connectCount (provisioningRequests n) = 0 := by
  induction n with
  | zero => rfl
  | succ n ih => simpa [provisioningRequests, connectCount] using ih

theorem smartconfigStartCount_provisioningRequests (n : Nat) :
    smartconfigStartCount (provisioningRequests n) = n := by
  induction n with
  | zero => rfl
  | succ n ih =>
      simp only [smartconfigStartCount] at ih
      simp [provisioningRequests, smartconfigStartCount, ih]

theorem smartconfigSetTypeCount_provisioningRequests (n : Nat) :
    smartconfigSetTypeCount (provisioningRequests n) = n := by
  induction n with
  | zero => rfl
  | succ n ih =>
      simp only [smartconfigSetTypeCount] at ih
      simp [provisioningRequests, smartconfigSetTypeCount, ih]

/-- Copying an array that holds a NUL-free string `str`, followed by a NUL unless the
string fills the `n` bytes, yields the string padded with NULs to `n` bytes. -/
theorem strncpy_string (str rest : List Nat) (n : Nat) (hnz : ∀ c ∈ str, c ≠ 0)
    (hlen : str.length ≤ n) (hrest : ∀ c ∈ rest.head?, c = 0) :
    strncpy (str ++ rest) n = str ++ List.replicate (n - str.length) 0 := by
  induction str generalizing n with
  | nil =>
      cases n with
      | zero => simp [strncpy]
      | succ m =>
          cases rest with
          | nil => simp [strncpy]
          | cons c cs =>
              have hc : c = 0 := hrest c (by simp)
              simp [strncpy, hc]
  | cons a as ih =>
      cases n with
      | zero => simp at hlen
      | succ m =>
          have ha : a ≠ 0 := hnz a (by simp)
          have hlen2 : as.length ≤ m := by simpa using hlen
          have := ih m (fun c hc => hnz c (by simp [hc])) hlen2
          simp [strncpy, ha, this]

/-- Copying an array whose first byte is NUL yields `n` NUL bytes. -/
theorem strncpy_empty (src : List Nat) (n : Nat) (h : src.head? = some 0) :
    strncpy src n = List.replicate n 0 := by
  cases src with
  | nil => simp at h
  | cons c cs =>
      have hc : c = 0 := by simpa using h
      cases n with
      | zero => simp [strncpy]
      | succ m => simp [strncpy, hc]

/-- With an accepting driver the credentials handler returns after the disconnect,
set-config and connect requests, the driver holding the configuration built from the
event. -/
theorem got_ssid_pass_ok (drv : Driver) (hdrv : ∀ issued c, drv issued c = true)
    (evt : smartconfig_event_got_ssid_pswd_t) (s : State) :
    SC_got_ssid_pass_event_handler drv evt s
      = Except.ok { s with
          sta_config := build_wifi_config evt,
          calls := s.calls ++ [DriverCall.esp_wifi_disconnect,
            DriverCall.esp_wifi_set_config (build_wifi_config evt),
            DriverCall.esp_wifi_connect] } := by
  unfold SC_got_ssid_pass_event_handler
  rw [check_ok drv _ s (hdrv _ _)]
  show (ESP_ERROR_CHECK drv (DriverCall.esp_wifi_set_config (build_wifi_config evt))
      (issue drv DriverCall.esp_wifi_disconnect s) >>= _) = _
  rw [check_ok drv _ _ (hdrv _ _)]
  show ESP_ERROR_CHECK drv DriverCall.esp_wifi_connect _ = _
  rw [check_ok drv _ _ (hdrv _ _)]
  simp [issue, hdrv]

/-! ## Claims -/

/-- C1: for every retry budget `b > 0` (a value of the C type `int`), one invocation of the
disconnect handler leaves the budget at exactly `b - 1`, issues exactly one connect request
and no SmartConfig set-type or start request; it returns normally when the driver accepts
the connect request. -/
theorem C1_disconnect_with_budget (drv : Driver) (evt : wifi_event_sta_disconnected_t)
    (s : State) (hpos : 0 < s.retry) (hint : s.retry ≤ INT_MAX) :
    (stateOf (STA_disconnected_event_handler drv evt s)).retry = s.retry - 1 ∧
    (stateOf (STA_disconnected_event_handler drv evt s)).calls
      = s.calls ++ [DriverCall.esp_wifi_connect] ∧
    connectCount (stateOf (STA_disconnected_event_handler drv evt s)).calls
      = connectCount s.calls + 1 ∧
    smartconfigSetTypeCount (stateOf (STA_disconnected_event_handler drv evt s)).calls
      = smartconfigSetTypeCount s.calls ∧
    smartconfigStartCount (stateOf (STA_disconnected_event_handler drv evt s)).calls
      = smartconfigStartCount s.calls ∧
    (drv s.calls DriverCall.esp_wifi_connect = true →
      STA_disconnected_event_handler drv evt s
        = Except.ok { s with retry := s.retry - 1,
                             calls := s.calls ++ [DriverCall.esp_wifi_connect] }) := by
  have hne : s.retry ≠ 0 := by omega
  have hw : wrapInt32 (s.retry - 1) = s.retry - 1 := by
    unfold INT_MAX at hint
    exact wrapInt32_of_range _ (by omega) (by omega)
  have hc : (stateOf (STA_disconnected_event_handler drv evt s)).calls
      = s.calls ++ [DriverCall.esp_wifi_connect] := by
    simp [STA_disconnected_event_handler, ESP_LOGI_retry_postdec, hne, stateOf_check, issue_calls]
  refine ⟨?_, hc, ?_, ?_, ?_, ?_⟩
  · rw [disconnected_retry, if_pos hne, hw]
  · rw [hc]; simp [connectCount]
  · rw [hc]; simp [smartconfigSetTypeCount]
  · rw [hc]; simp [smartconfigStartCount]
  · intro hok
    simp [STA_disconnected_event_handler, ESP_LOGI_retry_postdec, hne, ESP_ERROR_CHECK, hok, issue,
      hw]

/-- Witness of C1 at budget 3, the state `setup` starts the handlers with. -/
theorem C1_disconnect_with_budget_witness :
    (stateOf (STA_disconnected_event_handler drvOk ⟨[], 202⟩ (setup_init ⟨[], []⟩))).retry = 2 ∧
    (stateOf (STA_disconnected_event_handler drvOk ⟨[], 202⟩ (setup_init ⟨[], []⟩))).calls
      = [DriverCall.esp_wifi_connect] := by
  have h := C1_disconnect_with_budget drvOk ⟨[], 202⟩ (setup_init ⟨[], []⟩)
    (by decide) (by decide)
  exact ⟨h.1, h.2.1⟩

/-- C2: when the retry budget is 0, one invocation of the disconnect handler issues no
connect request, issues the SmartConfig set-type request and then (the driver accepting the
set-type request) the SmartConfig start request, and leaves the budget at 0; it returns
normally when the driver accepts the start request too. -/
theorem C2_disconnect_budget_exhausted (drv : Driver) (evt : wifi_event_sta_disconnected_t)
    (s : State) (h0 : s.retry = 0)
    (hset : drv s.calls DriverCall.esp_smartconfig_set_type = true) :
    (stateOf (STA_disconnected_event_handler drv evt s)).retry = 0 ∧
    (stateOf (STA_disconnected_event_handler drv evt s)).calls
      = s.calls ++ [DriverCall.esp_smartconfig_set_type, DriverCall.esp_smartconfig_start] ∧
    connectCount (stateOf (STA_disconnected_event_handler drv evt s)).calls
      = connectCount s.calls ∧
    smartconfigSetTypeCount (stateOf (STA_disconnected_event_handler drv evt s)).calls
      = smartconfigSetTypeCount s.calls + 1 ∧
    smartconfigStartCount (stateOf (STA_disconnected_event_handler drv evt s)).calls
      = smartconfigStartCount s.calls + 1 ∧
    (drv (s.calls ++ [DriverCall.esp_smartconfig_set_type]) DriverCall.esp_smartconfig_start
        = true →
      STA_disconnected_event_handler drv evt s
        = Except.ok { s with calls := s.calls ++
            [DriverCall.esp_smartconfig_set_type, DriverCall.esp_smartconfig_start] }) := by
  have hc : (stateOf (STA_disconnected_event_handler drv evt s)).calls
      = s.calls ++ [DriverCall.esp_smartconfig_set_type, DriverCall.esp_smartconfig_start] := by
    unfold STA_disconnected_event_handler
    rw [if_neg (by simp [h0]), stateOf_bind_check, if_pos hset, stateOf_check]
    simp [issue_calls]
  refine ⟨?_, hc, ?_, ?_, ?_, ?_⟩
  · rw [disconnected_retry, if_neg (by simp [h0]), h0]
  · rw [hc]; simp [connectCount]
  · rw [hc]; simp [smartconfigSetTypeCount]
  · rw [hc]; simp [smartconfigStartCount]
  · intro hok
    have h2 : drv (issue drv DriverCall.esp_smartconfig_set_type s).calls
        DriverCall.esp_smartconfig_start = true := by
      rw [issue_calls]; exact hok
    unfold STA_disconnected_event_handler
    rw [if_neg (by simp [h0]), check_ok drv _ s hset]
    show ESP_ERROR_CHECK drv DriverCall.esp_smartconfig_start
      (issue drv DriverCall.esp_smartconfig_set_type s) = _
    rw [check_ok _ _ _ h2]
    simp [issue]

/-- Witness of C2 at a state with budget 0 and an accepting driver. -/
theorem C2_disconnect_budget_exhausted_witness :
    (stateOf (STA_disconnected_event_handler drvOk ⟨[], 202⟩
        { setup_init ⟨[], []⟩ with retry := 0 })).retry = 0 ∧
    (stateOf (STA_disconnected_event_handler drvOk ⟨[], 202⟩
        { setup_init ⟨[], []⟩ with retry := 0 })).calls
      = [DriverCall.esp_smartconfig_set_type, DriverCall.esp_smartconfig_start] := by
  have h := C2_disconnect_budget_exhausted drvOk ⟨[], 202⟩
    { setup_init ⟨[], []⟩ with retry := 0 } rfl rfl
  exact ⟨h.1, h.2.1⟩

/-- C3: starting from the state `setup` creates (retry budget 3), after every finite
sequence of link-start, disconnect, credentials-discovered and got-IP events, in any order
and whatever the driver answers, the retry budget is between 0 and 3 inclusive. -/
theorem C3_budget_between_0_and_3 (drv : Driver) (cfg : wifi_config_t) (es : List Event) :
    0 ≤ (stateOf (run drv (setup_init cfg) es)).retry ∧
    (stateOf (run drv (setup_init cfg) es)).retry ≤ 3 :=
  run_retry_range drv es (setup_init cfg) (by simp [setup_init])

/-- C4, as stated, fails: starting with retry budget 3 and an accepting driver, after
exactly three disconnect events (reason: authentication failure) the handlers have issued
three connect requests and no SmartConfig request; provisioning has not been activated. -/
theorem C4_counterexample :
    (stateOf (run drvOk (setup_init blankConfig) [authFail, authFail, authFail])).calls
      = [DriverCall.esp_wifi_connect, DriverCall.esp_wifi_connect,
          DriverCall.esp_wifi_connect] ∧
    smartconfigSetTypeCount
      (stateOf (run drvOk (setup_init blankConfig) [authFail, authFail, authFail])).calls = 0 ∧
    smartconfigStartCount
      (stateOf (run drvOk (setup_init blankConfig) [authFail, authFail, authFail])).calls = 0 := by
  decide

/-- C4, amended: starting with retry budget 3 and a driver that accepts every request,
the first three consecutive disconnect events issue one connect request each and bring the
budget to 0 without activating provisioning; the fourth disconnect event activates
provisioning (SmartConfig set-type, then start); and however many disconnect events are
handled after that, no further connect request is issued. -/
theorem C4_provisioning_on_fourth_disconnect (drv : Driver)
    (hdrv : ∀ issued c, drv issued c = true) (cfg : wifi_config_t)
    (d1 d2 d3 d4 : wifi_event_sta_disconnected_t)
    (ds : List wifi_event_sta_disconnected_t) :
    run drv (setup_init cfg) (disconnects [d1, d2, d3])
      = Except.ok { setup_init cfg with retry := 0, calls :=
          [DriverCall.esp_wifi_connect, DriverCall.esp_wifi_connect,
            DriverCall.esp_wifi_connect] } ∧
    run drv (setup_init cfg) (disconnects [d1, d2, d3, d4])
      = Except.ok { setup_init cfg with retry := 0, calls :=
          [DriverCall.esp_wifi_connect, DriverCall.esp_wifi_connect,
            DriverCall.esp_wifi_connect, DriverCall.esp_smartconfig_set_type,
            DriverCall.esp_smartconfig_start] } ∧
    (∃ s, run drv (setup_init cfg) (disconnects ([d1, d2, d3, d4] ++ ds)) = Except.ok s ∧
      connectCount s.calls = 3 ∧ s.retry = 0) := by
  refine ⟨?_, ?_, ?_⟩
  · simp only [disconnects, List.map_cons, List.map_nil]
    rw [run_three_disconnects drv hdrv]
    rfl
  · simp only [disconnects, List.map_cons, List.map_nil]
    rw [run_three_disconnects drv hdrv]
    have := run_disconnects_zero drv hdrv [d4] { setup_init cfg with retry := 0, calls :=
          [DriverCall.esp_wifi_connect, DriverCall.esp_wifi_connect,
            DriverCall.esp_wifi_connect] } rfl
    simp only [disconnects, List.map_cons, List.map_nil] at this
    rw [this]
    rfl
  · simp only [disconnects, List.cons_append, List.nil_append, List.map_cons]
    rw [run_three_disconnects drv hdrv]
    have := run_disconnects_zero drv hdrv (d4 :: ds) { setup_init cfg with retry := 0, calls :=
          [DriverCall.esp_wifi_connect, DriverCall.esp_wifi_connect,
            DriverCall.esp_wifi_connect] } rfl
    simp only [disconnects, List.map_cons] at this
    rw [this]
    refine ⟨_, rfl, ?_, rfl⟩
    simp only [connectCount, List.count_append]
    have h := connectCount_provisioningRequests (d4 :: ds).length
    simp only [connectCount] at h
    rw [h]
    rfl

/-- Witness of the amended C4 with six disconnect events and the accepting driver. -/
theorem C4_provisioning_on_fourth_disconnect_witness :
    ∃ s, run drvOk (setup_init blankConfig)
        (disconnects ([⟨[], 202⟩, ⟨[], 202⟩, ⟨[], 202⟩, ⟨[], 202⟩] ++ [⟨[], 202⟩, ⟨[], 202⟩]))
          = Except.ok s ∧
      connectCount s.calls = 3 ∧ s.retry = 0 :=
  (C4_provisioning_on_fourth_disconnect drvOk (fun _ _ => rfl) blankConfig
    ⟨[], 202⟩ ⟨[], 202⟩ ⟨[], 202⟩ ⟨[], 202⟩ [⟨[], 202⟩, ⟨[], 202⟩]).2.2

/-- C5, as stated, fails: five disconnect events handled from the initial budget of 3 with
an accepting driver and no credentials-discovered event in between start SmartConfig twice,
not once: the fifth event issues the set-type and start requests again. -/
theorem C5_counterexample :
    smartconfigStartCount
      (stateOf (run drvOk (setup_init blankConfig)
        [authFail, authFail, authFail, authFail, authFail])).calls = 2 ∧
    ¬ smartconfigStartCount
      (stateOf (run drvOk (setup_init blankConfig)
        [authFail, authFail, authFail, authFail, authFail])).calls = 1 := by
  decide

/-- C5, amended: for every sequence of `n` disconnect events handled from the initial budget
of 3 with no other event in between and a driver that accepts every request, the run ends
with budget `3 - min n 3`, exactly `min n 3` connect requests (none after the third event)
and `n - 3` SmartConfig set-type and start requests: every disconnect event from the fourth
on activates provisioning again. -/
theorem C5_provisioning_on_every_exhausted_disconnect (drv : Driver)
    (hdrv : ∀ issued c, drv issued c = true) (cfg : wifi_config_t)
    (ds : List wifi_event_sta_disconnected_t) :
    ∃ s, run drv (setup_init cfg) (disconnects ds) = Except.ok s ∧
      s.calls = List.replicate (min ds.length 3) DriverCall.esp_wifi_connect
                  ++ provisioningRequests (ds.length - 3) ∧
      s.retry = 3 - (min ds.length 3 : Nat) ∧
      connectCount s.calls = min ds.length 3 ∧
      smartconfigSetTypeCount s.calls = ds.length - 3 ∧
      smartconfigStartCount s.calls = ds.length - 3 := by
  have hcounts : ∀ k m : Nat,
      connectCount (List.replicate k DriverCall.esp_wifi_connect ++ provisioningRequests m) = k ∧
      smartconfigSetTypeCount
        (List.replicate k DriverCall.esp_wifi_connect ++ provisioningRequests m) = m ∧
      smartconfigStartCount
        (List.replicate k DriverCall.esp_wifi_connect ++ provisioningRequests m) = m := by
    intro k m
    have h1 := connectCount_provisioningRequests m
    have h2 := smartconfigSetTypeCount_provisioningRequests m
    have h3 := smartconfigStartCount_provisioningRequests m
    simp only [connectCount, smartconfigSetTypeCount, smartconfigStartCount] at *
    simp [List.count_append, List.count_replicate, h1, h2, h3]
  match ds with
  | [] =>
      refine ⟨setup_init cfg, rfl, rfl, rfl, ?_, ?_, ?_⟩ <;> rfl
  | [d1] =>
      refine ⟨{ setup_init cfg with retry := 2, calls := [DriverCall.esp_wifi_connect] },
        ?_, rfl, rfl, ?_, ?_, ?_⟩
      · simp only [disconnects, List.map_cons, List.map_nil, run, dispatch]
        rw [disconnected_ok_pos drv hdrv d1 _ (by simp [setup_init])
          (by simp [setup_init, INT_MAX])]
        simp [setup_init]
      · rfl
      · rfl
      · rfl
  | [d1, d2] =>
      refine ⟨{ setup_init cfg with retry := 1, calls :=
          [DriverCall.esp_wifi_connect, DriverCall.esp_wifi_connect] },
        ?_, rfl, rfl, ?_, ?_, ?_⟩
      · simp only [disconnects, List.map_cons, List.map_nil, run, dispatch]
        rw [disconnected_ok_pos drv hdrv d1 _ (by simp [setup_init])
          (by simp [setup_init, INT_MAX])]
        simp only []
        rw [disconnected_ok_pos drv hdrv d2 _ (by simp [setup_init])
          (by simp [setup_init, INT_MAX])]
        simp [setup_init]
      · rfl
      · rfl
      · rfl
  | d1 :: d2 :: d3 :: ds =>
      have hrun := run_disconnects_zero drv hdrv ds { setup_init cfg with retry := 0, calls :=
          [DriverCall.esp_wifi_connect, DriverCall.esp_wifi_connect,
            DriverCall.esp_wifi_connect] } rfl
      have hmin : min (d1 :: d2 :: d3 :: ds).length 3 = 3 := by simp
      have hsub : (d1 :: d2 :: d3 :: ds).length - 3 = ds.length := by simp
      refine ⟨{ setup_init cfg with retry := 0, calls :=
          [DriverCall.esp_wifi_connect, DriverCall.esp_wifi_connect,
            DriverCall.esp_wifi_connect] ++ provisioningRequests ds.length },
        ?_, ?_, ?_, ?_, ?_, ?_⟩
      · simp only [disconnects, List.map_cons]
        rw [run_three_disconnects drv hdrv]
        simp only [disconnects] at hrun
        rw [hrun]
      · rw [hmin, hsub]; rfl
      · rw [hmin]; rfl
      · rw [hmin]; exact (hcounts 3 ds.length).1
      · rw [hsub]; exact (hcounts 3 ds.length).2.1
      · rw [hsub]; exact (hcounts 3 ds.length).2.2

/-- Witness of the amended C5 with five disconnect events and the accepting driver. -/
theorem C5_provisioning_on_every_exhausted_disconnect_witness :
    ∃ s, run drvOk (setup_init blankConfig)
        (disconnects [⟨[], 202⟩, ⟨[], 202⟩, ⟨[], 202⟩, ⟨[], 202⟩, ⟨[], 202⟩]) = Except.ok s ∧
      s.calls = List.replicate (min 5 3) DriverCall.esp_wifi_connect
                  ++ provisioningRequests (5 - 3) ∧
      s.retry = 3 - (min 5 3 : Nat) ∧
      connectCount s.calls = min 5 3 ∧
      smartconfigSetTypeCount s.calls = 5 - 3 ∧
      smartconfigStartCount s.calls = 5 - 3 :=
  C5_provisioning_on_every_exhausted_disconnect drvOk (fun _ _ => rfl) blankConfig
    [⟨[], 202⟩, ⟨[], 202⟩, ⟨[], 202⟩, ⟨[], 202⟩, ⟨[], 202⟩]

/-- C6: round trip of the Credential Store.  For every discovered credential whose identity
fits the 32-byte array and whose secret fits the 64-byte array of the event (neither
containing a NUL byte, each followed by a NUL unless it fills its array), whatever the
state before and with a driver that accepts every request, the credentials handler issues
disconnect, set-config and connect in this order; the configuration handed to the driver,
which the driver holds when the connect request follows, has the identity and the secret
byte for byte, every remaining byte of both fields being zero. -/
theorem C6_credential_round_trip (drv : Driver) (hdrv : ∀ issued c, drv issued c = true)
    (s : State) (identity secret rest1 rest2 : List Nat)
    (hid : ∀ c ∈ identity, c ≠ 0) (hsec : ∀ c ∈ secret, c ≠ 0)
    (hlen1 : (identity ++ rest1).length = SSID_SIZE)
    (hlen2 : (secret ++ rest2).length = PASSWORD_SIZE)
    (hr1 : ∀ c ∈ rest1.head?, c = 0) (hr2 : ∀ c ∈ rest2.head?, c = 0) :
    SC_got_ssid_pass_event_handler drv
        { ssid := identity ++ rest1, password := secret ++ rest2 } s
      = Except.ok { s with
          sta_config :=
            { ssid := identity ++ List.replicate (SSID_SIZE - identity.length) 0
              password := secret ++ List.replicate (PASSWORD_SIZE - secret.length) 0 },
          calls := s.calls ++ [DriverCall.esp_wifi_disconnect,
            DriverCall.esp_wifi_set_config
              { ssid := identity ++ List.replicate (SSID_SIZE - identity.length) 0
                password := secret ++ List.replicate (PASSWORD_SIZE - secret.length) 0 },
            DriverCall.esp_wifi_connect] } := by
  have h1 : identity.length ≤ SSID_SIZE := by
    rw [← hlen1, List.length_append]; omega
  have h2 : secret.length ≤ PASSWORD_SIZE := by
    rw [← hlen2, List.length_append]; omega
  have hb : build_wifi_config { ssid := identity ++ rest1, password := secret ++ rest2 }
      = { ssid := identity ++ List.replicate (SSID_SIZE - identity.length) 0
          password := secret ++ List.replicate (PASSWORD_SIZE - secret.length) 0 } := by
    simp only [build_wifi_config]
    rw [strncpy_string identity rest1 SSID_SIZE hid h1 hr1,
      strncpy_string secret rest2 PASSWORD_SIZE hsec h2 hr2]
  rw [got_ssid_pass_ok drv hdrv, hb]

/-- Witness of C6: the credential `HomeNet` / `secret123` delivered while the driver holds
a blank configuration. -/
theorem C6_credential_round_trip_witness :
    SC_got_ssid_pass_event_handler drvOk
        { ssid := bytes "HomeNet" ++ List.replicate 25 0,
          password := bytes "secret123" ++ List.replicate 55 0 } (setup_init blankConfig)
      = Except.ok { setup_init blankConfig with
          sta_config :=
            { ssid := bytes "HomeNet" ++ List.replicate (SSID_SIZE - (bytes "HomeNet").length) 0
              password := bytes "secret123" ++
                List.replicate (PASSWORD_SIZE - (bytes "secret123").length) 0 },
          calls := (setup_init blankConfig).calls ++ [DriverCall.esp_wifi_disconnect,
            DriverCall.esp_wifi_set_config
              { ssid := bytes "HomeNet" ++
                  List.replicate (SSID_SIZE - (bytes "HomeNet").length) 0
                password := bytes "secret123" ++
                  List.replicate (PASSWORD_SIZE - (bytes "secret123").length) 0 },
            DriverCall.esp_wifi_connect] } :=
  C6_credential_round_trip drvOk (fun _ _ => rfl) (setup_init blankConfig)
    (bytes "HomeNet") (bytes "secret123") (List.replicate 25 0) (List.replicate 55 0)
    (by decide) (by decide) (by decide) (by decide) (by decide) (by decide)

/-- C7, as stated, fails: with provisioning active and the driver holding `HomeNet` /
`secret123`, the credential with empty identity and secret `secret` is not rejected.  The
handler returns normally, the driver's configuration is replaced (identity all zero), and a
disconnect and a connect request are issued. -/
theorem C7_counterexample :
    (∃ s, SC_got_ssid_pass_event_handler drvOk emptyIdentityEvt provisioningState
        = Except.ok s) ∧
    (stateOf (SC_got_ssid_pass_event_handler drvOk emptyIdentityEvt provisioningState)).sta_config
      ≠ provisioningState.sta_config ∧
    (stateOf (SC_got_ssid_pass_event_handler drvOk emptyIdentityEvt provisioningState)).sta_config.ssid
      = List.replicate 32 0 ∧
    (stateOf (SC_got_ssid_pass_event_handler drvOk emptyIdentityEvt provisioningState)).calls
      = provisioningState.calls ++ [DriverCall.esp_wifi_disconnect,
          DriverCall.esp_wifi_set_config
            { ssid := List.replicate 32 0, password := padded (bytes "secret") 64 },
          DriverCall.esp_wifi_connect] := by
  refine ⟨⟨_, rfl⟩, ?_, ?_, ?_⟩ <;> decide

/-- C7, amended: a credentials-discovered event whose identity or secret is empty (the
first byte of the field is NUL) is handled like any other.  With a driver that accepts
every request the handler returns normally after issuing disconnect, set-config and connect;
the Credential Store is overwritten with the configuration built from the event, in which an
empty identity (secret) is 32 (64) zero bytes; no SmartConfig request is issued. -/
theorem C7_empty_credential_is_stored (drv : Driver) (hdrv : ∀ issued c, drv issued c = true)
    (evt : smartconfig_event_got_ssid_pswd_t) (s : State)
    (_hempty : evt.ssid.head? = some 0 ∨ evt.password.head? = some 0) :
    SC_got_ssid_pass_event_handler drv evt s
      = Except.ok { s with
          sta_config := build_wifi_config evt,
          calls := s.calls ++ [DriverCall.esp_wifi_disconnect,
            DriverCall.esp_wifi_set_config (build_wifi_config evt),
            DriverCall.esp_wifi_connect] } ∧
    (evt.ssid.head? = some 0 →
      (build_wifi_config evt).ssid = List.replicate SSID_SIZE 0) ∧
    (evt.password.head? = some 0 →
      (build_wifi_config evt).password = List.replicate PASSWORD_SIZE 0) :=
  ⟨got_ssid_pass_ok drv hdrv evt s,
    fun h => strncpy_empty _ _ h, fun h => strncpy_empty _ _ h⟩

/-- Witness of the amended C7 at the credential with empty identity and secret `secret`. -/
theorem C7_empty_credential_is_stored_witness :
    SC_got_ssid_pass_event_handler drvOk emptyIdentityEvt provisioningState
      = Except.ok { provisioningState with
          sta_config := build_wifi_config emptyIdentityEvt,
          calls := provisioningState.calls ++ [DriverCall.esp_wifi_disconnect,
            DriverCall.esp_wifi_set_config (build_wifi_config emptyIdentityEvt),
            DriverCall.esp_wifi_connect] } :=
  (C7_empty_credential_is_stored drvOk (fun _ _ => rfl) emptyIdentityEvt provisioningState
    (Or.inl (by decide))).1

/-- C8, as stated, fails: after a got-IP event carrying 10.0.0.42 and then one carrying
10.0.0.43, the captured address is 10.0.0.43, not 10.0.0.42. -/
theorem C8_counterexample :
    (IP_STA_got_ip_event_handler (gotIp (ip4 10 0 0 43))
      (IP_STA_got_ip_event_handler (gotIp (ip4 10 0 0 42)) (setup_init blankConfig))).ip_info.ip
        = ip4 10 0 0 43 ∧
    (IP_STA_got_ip_event_handler (gotIp (ip4 10 0 0 43))
      (IP_STA_got_ip_event_handler (gotIp (ip4 10 0 0 42)) (setup_init blankConfig))).ip_info.ip
        ≠ ip4 10 0 0 42 := by
  decide

/-- C8, amended: for all got-IP events A and B and every state, handling A and then B
leaves the captured address record equal to the one carried by B (the later event
overwrites the earlier one); the semaphore holds its single permit and nothing else
changes. -/
theorem C8_last_address_is_captured (evtA evtB : ip_event_got_ip_t) (s : State) :
    IP_STA_got_ip_event_handler evtB (IP_STA_got_ip_event_handler evtA s)
      = { s with ip_info := evtB.ip_info, sem := true } := by
  simp [IP_STA_got_ip_event_handler, xSemaphoreGive]

/-- C9, as stated, fails: after four disconnect events the budget is 0, and the
credentials-discovered event `HomeNet` / `secret123`, accepted by the driver and written
to the Credential Store, leaves it at 0, not 3. -/
theorem C9_counterexample :
    (∃ s, run drvOk (setup_init blankConfig)
        [authFail, authFail, authFail, authFail, Event.SC_EVENT_GOT_SSID_PSWD homeNetEvt]
          = Except.ok s ∧ s.sta_config = build_wifi_config homeNetEvt ∧ s.retry = 0) ∧
    (stateOf (run drvOk (setup_init blankConfig)
        [authFail, authFail, authFail, authFail, Event.SC_EVENT_GOT_SSID_PSWD homeNetEvt])).retry
      ≠ 3 := by
  refine ⟨⟨_, rfl, ?_, ?_⟩, ?_⟩ <;> decide

/-- C9, amended: the credentials-discovered handler does not write the retry budget: for
every budget value before the event, whatever the driver answers, the budget after the
event equals the budget before it. -/
theorem C9_budget_unchanged_by_credentials (drv : Driver)
    (evt : smartconfig_event_got_ssid_pswd_t) (s : State) :
    (stateOf (SC_got_ssid_pass_event_handler drv evt s)).retry = s.retry :=
  got_ssid_pass_retry drv evt s

/-- C10: scenario 3.  For every got-IP event, if it is handled while the readiness
semaphore is unset and before the startup sequence waits, the semaphore take of `setup`
returns at once and the address `setup` reads afterwards is the one the event carried. -/
theorem C10_wait_after_got_ip (evt : ip_event_got_ip_t) (s : State) (_hsem : s.sem = false) :
    setup_wait (IP_STA_got_ip_event_handler evt s)
      = some (evt.ip_info.ip, { s with ip_info := evt.ip_info, sem := false }) := by
  simp [setup_wait, xSemaphoreTake, IP_STA_got_ip_event_handler, xSemaphoreGive]

/-- Witness of C10 at address 10.0.0.42, the event arriving right after `setup` has
registered the handlers. -/
theorem C10_wait_after_got_ip_witness :
    (setup_init blankConfig).sem = false ∧
    setup_wait (IP_STA_got_ip_event_handler (gotIp (ip4 10 0 0 42)) (setup_init blankConfig))
      = some (ip4 10 0 0 42,
          { setup_init blankConfig with ip_info := (gotIp (ip4 10 0 0 42)).ip_info,
                                        sem := false }) :=
  ⟨rfl, C10_wait_after_got_ip (gotIp (ip4 10 0 0 42)) (setup_init blankConfig) rfl⟩

end DashButton
